import Mathlib

/-!
Shallow embedding of the geocoding preprocessing pipeline of the
aarhuspride-program repository (src/preprocess.py).

Strings are modelled as lists of characters so that every operation is a
structurally recursive, kernel-computable Lean function.  The external
geocoding backend is modelled as an oracle mapping the queried address
string to a response (found / not found / timed out / service error /
unexpected error).  Python exceptions are modelled with Except: a value
Except.error e means the Python code raised exception e at that point and
the exception propagated (the enclosing batch run has no handler, so an
Except.error escaping run_main means the process aborted before writing
its output file).  Log calls are collected in an explicit list.
-/

/-- Severity levels of the logging calls in preprocess.py. -/
inductive LogLevel where
  | info
  | warning
  | error
deriving DecidableEq, Repr

/-- The distinct log messages emitted by preprocess.py, with their payloads. -/
inductive LogMsg where
  /-- logging.warning of the invalid-address message in fetch_coordinates. -/
  | invalidAddress
  /-- logging.info of the address about to be geocoded. -/
  | geocodingAddress (a : List Char)
  /-- logging.info of the coordinates found. -/
  | foundCoords (lat lon : Rat)
  /-- logging.warning that the address was not found. -/
  | addressNotFound (a : List Char)
  /-- logging.error inside the GeocoderTimedOut handler. -/
  | geocoderTimedOutMsg (a : List Char)
  /-- logging.error inside the GeocoderServiceError handler. -/
  | geocoderServiceErrorMsg (a : List Char)
  /-- logging.error inside the catch-all Exception handler. -/
  | unexpectedErrorMsg (a : List Char)
  /-- logging.error in load_data listing the column names found after cleaning. -/
  | columnsFound (cols : List (List Char))
deriving DecidableEq, Repr

/-- One log record: a severity and a message. -/
structure LogEntry where
  level : LogLevel
  msg : LogMsg
deriving DecidableEq, Repr

/-- Python exceptions that the code under scrutiny can raise. -/
inductive PyExn where
  /-- AttributeError, e.g. calling .replace or .split on None or a float. -/
  | attributeError
  /-- NameError, e.g. referring to the undefined name st in preprocess.py. -/
  | nameError
deriving DecidableEq, Repr

/-- A Python value that may sit in a cell or be passed as an address:
either None, a text value, or a non-string scalar such as the float NaN
that pandas puts in empty cells. -/
inductive PyVal where
  | vnone
  | vstr (s : List Char)
  | vfloat
deriving DecidableEq, Repr

/-- Response of the external geocoding backend to one query, covering the
outcomes distinguished by fetch_coordinates: a location with coordinates,
no match, geopy.exc.GeocoderTimedOut, geopy.exc.GeocoderServiceError, or
any other exception. -/
inductive GeoResponse where
  | found (lat lon : Rat)
  | notFound
  | timedOut
  | serviceError
  | unexpectedError
deriving DecidableEq, Repr

/-- The geocoding backend as a deterministic oracle from the queried
address text to its response. -/
def Backend : Type := List Char → GeoResponse

/-- Whitespace in the sense of the Python regex class backslash-s and of
str.strip, restricted to the ASCII whitespace characters. -/
def isWs (c : Char) : Bool :=
  c = ' ' || c = '\t' || c = '\n' || c = '\x0d' || c = '\x0c' || c = '\x0b'

/-- Auxiliary for removing, Python str.replace style, every left-to-right
non-overlapping occurrence of the pattern from the list (replacement by the
empty string).  Fuel bounds the recursion; fuel equal to the list length is
always sufficient because each step consumes at least one character. -/
def removeOccAux (pat : List Char) : Nat → List Char → List Char
  | _, [] => []
  | 0, l => l
  | fuel + 1, c :: cs =>
    if !pat.isEmpty && pat.isPrefixOf (c :: cs) then
      removeOccAux pat fuel (List.drop pat.length (c :: cs))
    else
      c :: removeOccAux pat fuel cs

/-- Python s.replace(pat, blank): remove every occurrence of pat from s. -/
def removeOcc (pat : List Char) (l : List Char) : List Char :=
  removeOccAux pat l.length l

/-- Drop characters up to and including the first right bracket; none when
the list holds no right bracket.  Models the lazy regex fragment dot-star
right-bracket under re.DOTALL. -/
def afterRBracket : List Char → Option (List Char)
  | [] => none
  | c :: cs => if c = ']' then some cs else afterRBracket cs

/-- Try to match the regex ws* lbracket lazy-any rbracket ws* at the start
of the list; on success return the remainder after the match.  The leading
ws* must land exactly on a left bracket (whitespace can never satisfy the
bracket position, so greedy matching with backtracking reduces to this). -/
def bracketMatchAt (l : List Char) : Option (List Char) :=
  match l.dropWhile isWs with
  | '[' :: tl => (afterRBracket tl).map (fun r => r.dropWhile isWs)
  | _ => none

/-- Auxiliary for the re.sub of the bracket-removal regex: scan left to
right, removing each leftmost match.  Fuel equal to the list length is
always sufficient: a match consumes at least two characters and a non-match
step consumes one. -/
def removeBracketedAux : Nat → List Char → List Char
  | _, [] => []
  | 0, l => l
  | fuel + 1, c :: cs =>
    match bracketMatchAt (c :: cs) with
    | some rest => removeBracketedAux fuel rest
    | none => c :: removeBracketedAux fuel cs

/-- Python re.sub of ws* lbracket lazy-any rbracket ws* with the empty
string under re.DOTALL: remove every bracket-delimited substring together
with its surrounding whitespace. -/
def removeBracketed (l : List Char) : List Char :=
  removeBracketedAux l.length l

/-- Python col.replace of a newline by a space. -/
def mapNewline (l : List Char) : List Char :=
  l.map (fun c => if c = '\n' then ' ' else c)

/-- Python re.sub of one-or-more whitespace with a single space: collapse
every maximal whitespace run to one space character. -/
def collapseWs : List Char → List Char
  | [] => []
  | [c] => if isWs c then [' '] else [c]
  | c :: d :: cs =>
    if isWs c && isWs d then collapseWs (d :: cs)
    else (if isWs c then ' ' else c) :: collapseWs (d :: cs)

/-- Python str.strip: drop leading and trailing whitespace. -/
def pyStrip (l : List Char) : List Char :=
  (((l.dropWhile isWs).reverse.dropWhile isWs)).reverse

/-- First suffix phrase removed by load_data. -/
def suffixPhrase1 : List Char := "- Maks en sætning".toList

/-- Second suffix phrase removed by load_data. -/
def suffixPhrase2 : List Char := ", skriv linket her:".toList

/-- The five-step column-name cleaning of load_data in preprocess.py:
remove bracketed content, remove the two known suffix phrases, replace
newlines by spaces, collapse whitespace runs, strip. -/
def clean_col (l : List Char) : List Char :=
  pyStrip (collapseWs (mapNewline
    (removeOcc suffixPhrase2 (removeOcc suffixPhrase1 (removeBracketed l)))))

/-- Python str.strip truthiness test: the string is blank (empty after
stripping whitespace). -/
def isBlank (l : List Char) : Bool :=
  l.all isWs

/-- The address-noise stripping at the top of fetch_coordinates:
address.replace of the floor qualifier and of the st token. -/
def strip_noise (l : List Char) : List Char :=
  removeOcc " st".toList (removeOcc " 1.mf.".toList l)

/-- The fetch_coordinates function of preprocess.py, line for line:
first the two .replace calls (which raise AttributeError when the argument
is None or a non-string), then the blank check returning None with a
warning, then the backend call; a found location returns its coordinates,
no match returns None with a warning, and each exception handler logs at
error severity and then evaluates st.error — but preprocess.py never
imports streamlit, so the name st is undefined and a NameError is raised
from inside the handler. -/
def fetch_coordinates (backend : Backend) (address : PyVal) :
    List LogEntry × Except PyExn (Option (Rat × Rat)) :=
  match address with
  | .vnone => ([], .error .attributeError)
  | .vfloat => ([], .error .attributeError)
  | .vstr s0 =>
    let s := strip_noise s0
    if isBlank s then
      ([⟨.warning, .invalidAddress⟩], .ok none)
    else
      let logs0 : List LogEntry := [⟨.info, .geocodingAddress s⟩]
      match backend s with
      | .found lat lon =>
          (logs0 ++ [⟨.info, .foundCoords lat lon⟩], .ok (some (lat, lon)))
      | .notFound =>
          (logs0 ++ [⟨.warning, .addressNotFound s⟩], .ok none)
      | .timedOut =>
          (logs0 ++ [⟨.error, .geocoderTimedOutMsg s⟩], .error .nameError)
      | .serviceError =>
          (logs0 ++ [⟨.error, .geocoderServiceErrorMsg s⟩], .error .nameError)
      | .unexpectedError =>
          (logs0 ++ [⟨.error, .unexpectedErrorMsg s⟩], .error .nameError)

/-- The required column names checked by load_data after cleaning. -/
def required_cols : List (List Char) :=
  ["Titel på dit arrangement".toList, "Arrangør".toList, "Lokation".toList,
   "Start Tidspunkt".toList, "Slut Tidspunkt".toList]

/-- An input table abstracted to what the pipeline inspects: the raw column
names, and per row the value of the Lokation cell (a Python value: text, or
NaN for an empty cell).  All other cell contents are irrelevant to the
control flow being verified and are not represented. -/
structure InputTable where
  cols : List (List Char)
  loks : List PyVal
deriving DecidableEq, Repr

/-- The load_data function of preprocess.py, abstracted to the fields the
batch driver consumes: clean every column name, then check the required
columns; when any is missing, log the cleaned column list at error severity
and return the empty DataFrame (no rows); otherwise return the table rows.
The file-not-found and empty-file handlers likewise return the empty
DataFrame. -/
def load_data (t : InputTable) : List LogEntry × List PyVal :=
  let cleaned := t.cols.map clean_col
  let missing := required_cols.filter (fun c => decide (¬ c ∈ cleaned))
  if missing.isEmpty then
    ([], t.loks)
  else
    ([⟨.error, .columnsFound cleaned⟩], [])

/-- Python s.split on a newline separator: always a non-empty list of
fields; the empty string splits to one empty field. -/
def splitOnNl : List Char → List (List Char)
  | [] => [[]]
  | c :: cs =>
    if c = '\n' then [] :: splitOnNl cs
    else
      match splitOnNl cs with
      | [] => [[c]]
      | h :: tl => (c :: h) :: tl

/-- One enriched row of the output table: the four coordinate columns the
driver adds, each initialised to None. -/
structure EnrichedRow where
  lat : Option Rat
  lon : Option Rat
  latList : Option (List Rat)
  lonList : Option (List Rat)
deriving DecidableEq, Repr

/-- The multi-address loop of the batch driver: call fetch_coordinates on
each address in order, appending each successful pair of coordinates to the
two accumulator lists and skipping failures; an exception escaping
fetch_coordinates propagates immediately. -/
def resolve_addrs (backend : Backend) :
    List (List Char) → List LogEntry × Except PyExn (List Rat × List Rat)
  | [] => ([], .ok ([], []))
  | a :: rest =>
    let r := fetch_coordinates backend (.vstr a)
    match r.2 with
    | .error e => (r.1, .error e)
    | .ok res =>
      let r2 := resolve_addrs backend rest
      match r2.2 with
      | .error e => (r.1 ++ r2.1, .error e)
      | .ok (lats, lons) =>
        match res with
        | some (la, lo) => (r.1 ++ r2.1, .ok (la :: lats, lo :: lons))
        | none => (r.1 ++ r2.1, .ok (lats, lons))

/-- The per-row body of the batch driver loop in preprocess.py: split the
Lokation value on newlines (raising AttributeError when it is None or a
non-string), then either the single-address branch (populate Latitude and
Longitude on success, leave everything None on failure) or the
multi-address branch (resolve each address, store the accumulated lists
when non-empty, otherwise leave everything None). -/
def process_row (backend : Backend) (lok : PyVal) :
    List LogEntry × Except PyExn EnrichedRow :=
  match lok with
  | .vnone => ([], .error .attributeError)
  | .vfloat => ([], .error .attributeError)
  | .vstr s =>
    match splitOnNl s with
    | [a] =>
      let r := fetch_coordinates backend (.vstr a)
      match r.2 with
      | .error e => (r.1, .error e)
      | .ok (some (la, lo)) => (r.1, .ok ⟨some la, some lo, none, none⟩)
      | .ok none => (r.1, .ok ⟨none, none, none, none⟩)
    | addrs =>
      let r := resolve_addrs backend addrs
      match r.2 with
      | .error e => (r.1, .error e)
      | .ok (lats, lons) =>
        if !lats.isEmpty && !lons.isEmpty then
          (r.1, .ok ⟨none, none, some lats, some lons⟩)
        else
          (r.1, .ok ⟨none, none, none, none⟩)

/-- Iterate process_row over the table rows in order; the first uncaught
exception aborts the whole loop. -/
def process_rows (backend : Backend) :
    List PyVal → List LogEntry × Except PyExn (List EnrichedRow)
  | [] => ([], .ok [])
  | l :: rest =>
    let r := process_row backend l
    match r.2 with
    | .error e => (r.1, .error e)
    | .ok row =>
      let r2 := process_rows backend rest
      (r.1 ++ r2.1, r2.2.map (fun rows => row :: rows))

/-- The output file written by df.to_csv at the end of the run: the
enriched rows. -/
structure OutputFile where
  rows : List EnrichedRow
deriving DecidableEq, Repr

/-- The whole main block of preprocess.py: load and normalize, iterate the
rows resolving coordinates, and write the output file.  A result
Except.ok o means the run completed and df.to_csv wrote the output file o;
Except.error e means an uncaught exception e aborted the process before
the final to_csv call, so no output file was written. -/
def run_main (backend : Backend) (t : InputTable) :
    List LogEntry × Except PyExn OutputFile :=
  let ld := load_data t
  let pr := process_rows backend ld.2
  (ld.1 ++ pr.1, pr.2.map OutputFile.mk)

/-- The per-address success test induced by the backend: whether
fetch_coordinates on this address text returns a pair of coordinates. -/
def fetchSucceeds (backend : Backend) (a : List Char) : Bool :=
  match (fetch_coordinates backend (PyVal.vstr a)).2 with
  | .ok (some _) => true
  | _ => false

/-- Every character of the output of collapseWs is a character of the
input or a space. -/
theorem mem_collapseWs {c : Char} : ∀ {l : List Char}, c ∈ collapseWs l → c ∈ l ∨ c = ' '
  | [], h => by simp [collapseWs] at h
  | [d], h => by
      simp only [collapseWs] at h
      split at h
      · simp at h; exact Or.inr h
      · simp at h; exact Or.inl (by simp [h])
  | d :: e :: cs, h => by
      simp only [collapseWs] at h
      split at h
      · rcases mem_collapseWs h with h1 | h1
        · exact Or.inl (List.mem_cons_of_mem _ h1)
        · exact Or.inr h1
      · rcases List.mem_cons.mp h with h1 | h1
        · split at h1
          · exact Or.inr h1
          · exact Or.inl (by simp [h1])
        · rcases mem_collapseWs h1 with h2 | h2
          · exact Or.inl (List.mem_cons_of_mem _ h2)
          · exact Or.inr h2

/-- Every character of the output of pyStrip is a character of the input. -/
theorem mem_pyStrip {c : Char} {l : List Char} (h : c ∈ pyStrip l) : c ∈ l := by
  unfold pyStrip at h
  rw [List.mem_reverse] at h
  have h2 := (List.dropWhile_sublist isWs).mem h
  rw [List.mem_reverse] at h2
  exact (List.dropWhile_sublist isWs).mem h2

/-- The output of mapNewline holds no newline character. -/
theorem newline_not_mem_mapNewline (l : List Char) : '\n' ∉ mapNewline l := by
  intro h
  unfold mapNewline at h
  rcases List.mem_map.mp h with ⟨a, _, ha⟩
  by_cases h1 : a = '\n' <;> simp [h1] at ha

/-- No cleaned column name holds a newline character. -/
theorem newline_not_mem_clean_col (l : List Char) : '\n' ∉ clean_col l := by
  intro h
  unfold clean_col at h
  have h1 := mem_pyStrip h
  rcases mem_collapseWs h1 with h2 | h2
  · exact newline_not_mem_mapNewline _ h2
  · exact absurd h2 (by decide)

/-- Boolean form of the no-newline property of clean_col. -/
theorem contains_newline_clean_col (l : List Char) :
    (clean_col l).contains '\n' = false := by
  simpa [List.contains_iff_exists_mem_beq] using newline_not_mem_clean_col l

/-- A single-address row whose one address resolves successfully produces
the record populating Latitude and Longitude and leaving both list fields
unset. -/
theorem process_row_single_success (backend : Backend) (s a : List Char) (la lo : Rat)
    (hs : splitOnNl s = [a])
    (hf : (fetch_coordinates backend (PyVal.vstr a)).2 = Except.ok (some (la, lo))) :
    (process_row backend (PyVal.vstr s)).2 =
      Except.ok ⟨some la, some lo, none, none⟩ := by
  simp only [process_row, hs, hf]

/-- When the multi-address loop completes without an exception, the two
accumulated lists have equal length, that length counts exactly the
successfully resolved addresses, and it never exceeds the address count. -/
theorem resolve_addrs_len (backend : Backend) :
    ∀ (addrs : List (List Char)) (lats lons : List Rat),
      (resolve_addrs backend addrs).2 = Except.ok (lats, lons) →
      lats.length = lons.length ∧
      lats.length = addrs.countP (fetchSucceeds backend) ∧
      lats.length ≤ addrs.length := by
  intro addrs
  induction addrs with
  | nil =>
    intro lats lons h
    simp only [resolve_addrs, Except.ok.injEq, Prod.mk.injEq] at h
    obtain ⟨h1, h2⟩ := h
    subst h1; subst h2
    simp
  | cons a rest ih =>
    intro lats lons h
    simp only [resolve_addrs] at h
    cases hf : (fetch_coordinates backend (PyVal.vstr a)).2 with
    | error e => rw [hf] at h; simp at h
    | ok res =>
      rw [hf] at h
      cases hr : (resolve_addrs backend rest).2 with
      | error e =>
        rw [hr] at h
        cases res with
        | none => simp at h
        | some p => obtain ⟨pl, po⟩ := p; simp at h
      | ok p =>
        obtain ⟨lats2, lons2⟩ := p
        rw [hr] at h
        obtain ⟨hl1, hl2, hl3⟩ := ih lats2 lons2 hr
        cases res with
        | none =>
          simp only [Except.ok.injEq, Prod.mk.injEq] at h
          obtain ⟨rfl, rfl⟩ := h
          refine ⟨hl1, ?_, ?_⟩
          · rw [List.countP_cons]
            have hfail : fetchSucceeds backend a = false := by
              simp [fetchSucceeds, hf]
            rw [hfail]
            simp [hl2]
          · exact Nat.le_succ_of_le hl3
        | some pc =>
          obtain ⟨la, lo⟩ := pc
          simp only [Except.ok.injEq, Prod.mk.injEq] at h
          obtain ⟨rfl, rfl⟩ := h
          refine ⟨by simp [hl1], ?_, ?_⟩
          · rw [List.countP_cons]
            have hsucc : fetchSucceeds backend a = true := by
              simp [fetchSucceeds, hf]
            rw [hsucc]
            simp [hl2]
          · simpa using Nat.succ_le_succ hl3

/-- Every record a row produces either leaves both list fields unset or
leaves both single fields unset. -/
theorem process_row_ok_shape (backend : Backend) (lok : PyVal) (row : EnrichedRow)
    (h : (process_row backend lok).2 = Except.ok row) :
    (row.latList = none ∧ row.lonList = none) ∨ (row.lat = none ∧ row.lon = none) := by
  cases lok with
  | vnone => simp [process_row] at h
  | vfloat => simp [process_row] at h
  | vstr s =>
    rcases hsp : splitOnNl s with _ | ⟨a, _ | ⟨b, rest⟩⟩
    · simp only [process_row, hsp] at h
      simp [resolve_addrs] at h
      subst h
      right; simp
    · simp only [process_row, hsp] at h
      cases hf : (fetch_coordinates backend (PyVal.vstr a)).2 with
      | error e => rw [hf] at h; simp at h
      | ok res =>
        rw [hf] at h
        cases res with
        | none =>
          simp only [Except.ok.injEq] at h
          subst h
          right; simp
        | some pc =>
          obtain ⟨la, lo⟩ := pc
          simp only [Except.ok.injEq] at h
          subst h
          left; simp
    · simp only [process_row, hsp] at h
      cases hr : (resolve_addrs backend (a :: b :: rest)).2 with
      | error e => rw [hr] at h; simp at h
      | ok p =>
        obtain ⟨lats, lons⟩ := p
        simp only [hr] at h
        split at h
        · simp only [Except.ok.injEq] at h
          subst h
          right; simp
        · simp only [Except.ok.injEq] at h
          subst h
          right; simp

/-- Claim C1. The claim states that a backend timeout, service error or any
other exception makes resolve return None after an error log, with the batch
continuing.  The code contradicts it: on a GeocoderTimedOut the handler logs
at error severity and then evaluates st.error, but preprocess.py never
imports streamlit, so the undefined name st raises a NameError that escapes
fetch_coordinates and aborts the batch.  This theorem evaluates the model at
the failing input: the error log is emitted, yet the call ends in a raised
NameError instead of returning None. -/
theorem C1_timeout_raises :
    fetch_coordinates (fun _ => GeoResponse.timedOut) (PyVal.vstr "Ryesgade 5".toList) =
      ([⟨.info, .geocodingAddress "Ryesgade 5".toList⟩,
        ⟨.error, .geocoderTimedOutMsg "Ryesgade 5".toList⟩],
       Except.error PyExn.nameError) := rfl

/-- Claim C2. The claim states that resolve on None, a non-string, or a
blank string returns None after a warning log, makes no backend call and
does not raise.  The code contradicts the None and non-string cases: line 21
calls address.replace before the validation guard, raising AttributeError.
The blank cases behave as claimed.  The quantification over the backend in
each conjunct shows no external call is made (the result does not depend on
the backend). -/
theorem C2_invalid_input :
    (∀ b : Backend, fetch_coordinates b PyVal.vnone = ([], Except.error PyExn.attributeError)) ∧
    (∀ b : Backend, fetch_coordinates b PyVal.vfloat = ([], Except.error PyExn.attributeError)) ∧
    (∀ b : Backend, fetch_coordinates b (PyVal.vstr "".toList) =
        ([⟨.warning, .invalidAddress⟩], Except.ok none)) ∧
    (∀ b : Backend, fetch_coordinates b (PyVal.vstr "   ".toList) =
        ([⟨.warning, .invalidAddress⟩], Except.ok none)) :=
  ⟨fun _ => rfl, fun _ => rfl, fun _ => rfl, fun _ => rfl⟩

/-- Claim C3, counterexample. On a table whose single column lacks the
required fields, normalization yields the empty table (left conjunct, with
the error log), yet the batch driver still completes and the final to_csv
writes an output file (right conjunct: the run result is ok, an output file
with zero rows), contradicting the claim that it terminates without
writing any output file. -/
theorem C3_empty_norm_still_writes :
    load_data ⟨["Titel på dit arrangement".toList], []⟩ =
      ([⟨.error, .columnsFound ["Titel på dit arrangement".toList]⟩], []) ∧
    (run_main (fun _ => GeoResponse.notFound) ⟨["Titel på dit arrangement".toList], []⟩).2 =
      Except.ok ⟨[]⟩ :=
  ⟨rfl, rfl⟩

/-- Claim C3, amended. When normalization yields an empty table, the batch
driver does not terminate early: it runs to completion and writes an output
file containing zero rows (only the four coordinate columns added to the
empty table). -/
theorem C3_empty_norm_writes_header_only (b : Backend) (t : InputTable)
    (h : (load_data t).2 = []) :
    (run_main b t).2 = Except.ok ⟨[]⟩ := by
  simp only [run_main, h, process_rows, Except.map]

/-- Witness for C3_empty_norm_writes_header_only at a concrete empty
table. -/
theorem C3_empty_norm_writes_header_only_witness :
    (run_main (fun _ => GeoResponse.timedOut) ⟨[], []⟩).2 = Except.ok ⟨[]⟩ :=
  C3_empty_norm_writes_header_only _ _ rfl

/-- Claim C4. First conjunct: with three newline-separated addresses where
the backend resolves the first and third and fails to match the second, the
resolver is called once per address in left-to-right order (visible in the
log sequence) and the record carries lists of length two holding the first
and third coordinates in order, the failed address omitted.  Second
conjunct: two rows whose addresses all fail to match still produce records
with all coordinate fields unset and the batch proceeds through both rows.
Third conjunct: the code contradicts the claim for a timeout failure - the
second address timing out makes fetch_coordinates raise NameError (the
undefined st), aborting the row and the batch instead of omitting the
address. -/
theorem C4_multi_address_aggregation :
    process_row
        (fun a => if a = "Adresse A".toList then GeoResponse.found 56 10
          else if a = "Adresse B".toList then GeoResponse.notFound
          else if a = "Adresse C".toList then GeoResponse.found 57 11
          else GeoResponse.timedOut)
        (PyVal.vstr "Adresse A\nAdresse B\nAdresse C".toList) =
      ([⟨.info, .geocodingAddress "Adresse A".toList⟩,
        ⟨.info, .foundCoords 56 10⟩,
        ⟨.info, .geocodingAddress "Adresse B".toList⟩,
        ⟨.warning, .addressNotFound "Adresse B".toList⟩,
        ⟨.info, .geocodingAddress "Adresse C".toList⟩,
        ⟨.info, .foundCoords 57 11⟩],
       Except.ok ⟨none, none, some [56, 57], some [10, 11]⟩) ∧
    (process_rows (fun _ => GeoResponse.notFound)
        [PyVal.vstr "Adresse X\nAdresse Y".toList,
         PyVal.vstr "Adresse Z\nAdresse V".toList]).2 =
      Except.ok [⟨none, none, none, none⟩, ⟨none, none, none, none⟩] ∧
    (process_row
        (fun a => if a = "Adresse A".toList then GeoResponse.found 56 10
          else GeoResponse.timedOut)
        (PyVal.vstr "Adresse A\nAdresse D".toList)).2 =
      Except.error PyExn.nameError :=
  ⟨rfl, rfl, rfl⟩

/-- Claim C5, counterexample. A two-address location spec where the second
address fails to resolve produces coordinate lists of length one, not two:
the arity of the resolved coordinates does not match the arity of the
addresses in the location spec. -/
theorem C5_arity_mismatch :
    (process_row
        (fun a => if a = "Klostertorvet 5".toList then GeoResponse.found 56 10
          else GeoResponse.notFound)
        (PyVal.vstr "Klostertorvet 5\nUkendt Vej 99".toList)).2 =
      Except.ok ⟨none, none, some [56], some [10]⟩ ∧
    (splitOnNl "Klostertorvet 5\nUkendt Vej 99".toList).length = 2 ∧
    List.length [(56 : Rat)] = 1 :=
  ⟨rfl, rfl, rfl⟩

/-- Claim C5, amended. An N-address location spec yields coordinate lists
of one common length equal to the number of successfully resolved
addresses, which is at most N; a single-address spec yields exactly one
coordinate pair when its address resolves successfully. -/
theorem C5_coordinate_arity (backend : Backend) :
    (∀ (addrs : List (List Char)) (lats lons : List Rat),
      (resolve_addrs backend addrs).2 = Except.ok (lats, lons) →
      lats.length = lons.length ∧
      lats.length = addrs.countP (fetchSucceeds backend) ∧
      lats.length ≤ addrs.length) ∧
    (∀ (s a : List Char) (la lo : Rat), splitOnNl s = [a] →
      (fetch_coordinates backend (PyVal.vstr a)).2 = Except.ok (some (la, lo)) →
      (process_row backend (PyVal.vstr s)).2 =
        Except.ok ⟨some la, some lo, none, none⟩) :=
  ⟨resolve_addrs_len backend,
   fun s a la lo hs hf => process_row_single_success backend s a la lo hs hf⟩

/-- Witness for C5_coordinate_arity at a concrete backend: two addresses of
which one resolves, and a single resolving address. -/
theorem C5_coordinate_arity_witness :
    (List.length [(56 : Rat)] = List.length [(10 : Rat)] ∧
     List.length [(56 : Rat)] =
       List.countP
         (fetchSucceeds
           (fun a => if a = "Adresse A".toList then GeoResponse.found 56 10
             else GeoResponse.notFound))
         ["Adresse A".toList, "Adresse B".toList] ∧
     List.length [(56 : Rat)] ≤
       List.length ["Adresse A".toList, "Adresse B".toList]) ∧
    (process_row
        (fun a => if a = "Adresse A".toList then GeoResponse.found 56 10
          else GeoResponse.notFound)
        (PyVal.vstr "Adresse A".toList)).2 =
      Except.ok ⟨some 56, some 10, none, none⟩ :=
  ⟨(C5_coordinate_arity _).1 ["Adresse A".toList, "Adresse B".toList] [56] [10] rfl,
   (C5_coordinate_arity _).2 "Adresse A".toList "Adresse A".toList 56 10 rfl rfl⟩

/-- Claim C6, counterexample. A raw column name with an unmatched left
bracket passes through the cleaning untouched, so the cleaned label retains
a residual bracket character, contradicting the claim that no residual
bracket content is ever left. -/
theorem C6_residual_bracket :
    clean_col "Titel [uafsluttet".toList = "Titel [uafsluttet".toList ∧
    '[' ∈ clean_col "Titel [uafsluttet".toList := by
  constructor
  · rfl
  · decide

/-- Claim C6, amended. Normalization removes every leftmost non-overlapping
bracket-delimited substring (including across newlines) with its
surrounding whitespace, removes the two known suffix phrases, replaces
newlines with spaces, collapses whitespace runs and trims; no newline ever
survives into the cleaned label, but a bracket character can survive when
the raw name contains an unmatched bracket.  The two equalities exercise a
multi-line bracketed header with a suffix phrase and a header with the
second suffix phrase. -/
theorem C6_cleaning :
    (∀ l : List Char, (clean_col l).contains '\n' = false) ∧
    clean_col "Hvad handler dit arrangement om?\n[Uddyb gerne] - Maks en sætning".toList =
      "Hvad handler dit arrangement om?".toList ∧
    clean_col "Link til dit arrangement, skriv linket her:\n[fx Facebook]".toList =
      "Link til dit arrangement".toList :=
  ⟨contains_newline_clean_col, rfl, rfl⟩

/-- Claim C7. When any one required field is missing from the cleaned
column names, load_data logs the full cleaned column list at error severity
and returns the empty table, with no partial processing. -/
theorem C7_missing_required_field (t : InputTable) (r : List Char)
    (hr : r ∈ required_cols) (hm : r ∉ t.cols.map clean_col) :
    load_data t = ([⟨.error, .columnsFound (t.cols.map clean_col)⟩], []) := by
  unfold load_data
  have hmem : r ∈ required_cols.filter
      (fun c => decide (¬ c ∈ t.cols.map clean_col)) := by
    rw [List.mem_filter]
    exact ⟨hr, by simpa using hm⟩
  have hne : (required_cols.filter
      (fun c => decide (¬ c ∈ t.cols.map clean_col))).isEmpty = false := by
    rw [List.isEmpty_eq_false]
    intro h0
    rw [h0] at hmem
    exact absurd hmem (List.not_mem_nil r)
  simp only [hne, Bool.false_eq_true, if_false]

/-- Witness for C7_missing_required_field at a concrete one-column table
missing the Lokation field. -/
theorem C7_missing_required_field_witness :
    load_data ⟨["Arrangør".toList], []⟩ =
      ([⟨.error, .columnsFound ["Arrangør".toList]⟩], []) := by
  have := C7_missing_required_field ⟨["Arrangør".toList], []⟩ "Lokation".toList
    (by decide) (by decide)
  simpa using this

/-- Claim C8. First conjunct: no record a row produces ever has a single
coordinate field and the corresponding list field populated simultaneously.
Second conjunct: a single-address location spec whose address resolves
successfully produces a record with Latitude and Longitude populated and
both list fields unset. -/
theorem C8_single_vs_list (backend : Backend) :
    (∀ (lok : PyVal) (row : EnrichedRow),
      (process_row backend lok).2 = Except.ok row →
      (row.lat.isSome && row.latList.isSome) = false ∧
      (row.lon.isSome && row.lonList.isSome) = false) ∧
    (∀ (s a : List Char) (la lo : Rat), splitOnNl s = [a] →
      (fetch_coordinates backend (PyVal.vstr a)).2 = Except.ok (some (la, lo)) →
      (process_row backend (PyVal.vstr s)).2 =
        Except.ok ⟨some la, some lo, none, none⟩) := by
  constructor
  · intro lok row h
    rcases process_row_ok_shape backend lok row h with ⟨h1, h2⟩ | ⟨h1, h2⟩ <;>
      simp [h1, h2]
  · exact fun s a la lo hs hf => process_row_single_success backend s a la lo hs hf

/-- Witness for C8_single_vs_list at a concrete backend and a concrete
single-address row that resolves successfully. -/
theorem C8_single_vs_list_witness :
    (((some (56 : Rat)).isSome && (none : Option (List Rat)).isSome) = false ∧
     ((some (10 : Rat)).isSome && (none : Option (List Rat)).isSome) = false) ∧
    (process_row (fun _ => GeoResponse.found 56 10)
        (PyVal.vstr "Banegårdspladsen 1".toList)).2 =
      Except.ok ⟨some 56, some 10, none, none⟩ :=
  ⟨(C8_single_vs_list (fun _ => GeoResponse.found 56 10)).1
      (PyVal.vstr "Banegårdspladsen 1".toList) ⟨some 56, some 10, none, none⟩ rfl,
   (C8_single_vs_list (fun _ => GeoResponse.found 56 10)).2
      "Banegårdspladsen 1".toList "Banegårdspladsen 1".toList 56 10 rfl rfl⟩

/-- Claim C9. The run is a deterministic function of the input table and
the backend responses: two runs over the same input against backends that
return identical answers for identical queries produce identical results
(logs, outcome, and output table). -/
theorem C9_deterministic (b1 b2 : Backend) (t : InputTable)
    (h : ∀ a, b1 a = b2 a) : run_main b1 t = run_main b2 t := by
  have hb : b1 = b2 := funext h
  rw [hb]

/-- Witness for C9_deterministic at a concrete table and two
pointwise-equal backends. -/
theorem C9_deterministic_witness :
    run_main (fun _ => GeoResponse.notFound)
        ⟨required_cols, [PyVal.vstr "Åboulevarden 1".toList]⟩ =
      run_main (fun a => if a = a then GeoResponse.notFound else GeoResponse.timedOut)
        ⟨required_cols, [PyVal.vstr "Åboulevarden 1".toList]⟩ :=
  C9_deterministic _ _ _ (fun a => by simp)

/-- Claim C10. The driver splits the raw Lokation value with no null or
type guard: a row whose Lokation is None or a non-string raises
AttributeError (first two conjuncts, for every backend) instead of
producing an enriched record, and such a row aborts the whole run before
any output is written (third conjunct: a well-formed table whose second row
has a None Lokation ends in an uncaught AttributeError). -/
theorem C10_nontext_location_raises :
    (∀ b : Backend, process_row b PyVal.vnone = ([], Except.error PyExn.attributeError)) ∧
    (∀ b : Backend, process_row b PyVal.vfloat = ([], Except.error PyExn.attributeError)) ∧
    (run_main (fun _ => GeoResponse.found 56 10)
        ⟨required_cols, [PyVal.vstr "Åboulevarden 1".toList, PyVal.vnone]⟩).2 =
      Except.error PyExn.attributeError :=
  ⟨fun _ => rfl, fun _ => rfl, rfl⟩
